import Mathlib

set_option autoImplicit false
set_option maxHeartbeats 1000000

/-! Shallow embedding of `timezones/fields.py` from the django-timezones
repository.

Modelling conventions:

* A Python `datetime` is a wall-clock reading in minutes (`DT.wall`) together
  with an optional attached zone (`DT.tz`); `tz = none` models a naive
  datetime.
* A `pytz` time zone (`Timezone`) is a name together with a fixed UTC offset
  in minutes; `localize` attaches the zone to a naive datetime and
  `astimezone` converts an aware datetime between zones, preserving the
  denoted instant.  (DST transitions are not modelled; every zone acts as the
  fixed offset it has at the instants of interest.)
* Python exceptions are modelled with the `Except PyErr` monad; the functions
  return the mutated instance explicitly instead of mutating it in place.
* A model instance's `__dict__` is modelled by the three slots the field
  uses — `raw` is `__dict__[field.name]`, `canonical` is
  `__dict__[field.attname]` (the `fieldname_utc` shadow slot) and `cache` is
  `__dict__[field.get_cache_name()]` — plus the other attributes reachable by
  `getattr`, the `_x_cache` related-instance entries walked by the dotted
  lookup, and the single-column rows the fallback database query can return.
-/

/-- A pytz-style time zone: a name and a fixed UTC offset in minutes. -/
structure Timezone where
  name : String
  offset : Int
deriving DecidableEq

/-- A Python datetime: wall-clock minutes plus the optionally attached zone
(`tz = none` is a naive datetime). -/
structure DT where
  wall : Int
  tz : Option Timezone
deriving DecidableEq

/-- The Python exceptions the embedded code can raise. -/
inductive PyErr where
  | attributeError
  | indexError
  | keyError
  | typeError
  | valueError
  | validationError
  | unknownTimeZoneError
  | invalidTimeZone
  | misconfiguredMaxLength
deriving DecidableEq

/-- A Python value as far as the field code inspects it: `None`, a datetime,
a tzinfo object, a string, or some other non-datetime object. -/
inductive Value where
  | vnone
  | vdt (d : DT)
  | vtz (tz : Timezone)
  | vstr (s : String)
  | vother
deriving DecidableEq

/-- `db_tz = pytz.utc` (fields.py line 19): the canonical storage zone. -/
def db_tz : Timezone := ⟨ "UTC", 0⟩

/-- `tz.localize(d)`: attach the zone to a wall-clock reading.  The code only
calls it on naive datetimes (it always checks `tzinfo is None` first). -/
def Timezone.localize (tz : Timezone) (d : DT) : DT := ⟨d.wall, some tz⟩

/-- `d.astimezone(tz)` for a tzinfo argument: convert an aware datetime to
another zone, preserving the instant; on a naive datetime Python 2 raises
`ValueError`. -/
def DT.astimezone : DT → Timezone → Except PyErr DT
  | ⟨w, some t⟩, tz => .ok ⟨w - t.offset + tz.offset, some tz⟩
  | ⟨_, none⟩, _ => .error .valueError

/-- `d.astimezone(x)` where `x` is an arbitrary value: a non-tzinfo argument
raises `TypeError`. -/
def DT.astimezoneV : DT → Value → Except PyErr DT
  | d, .vtz tz => d.astimezone tz
  | _, _ => .error .typeError

/-- `x.localize(d)` where `x` is an arbitrary value: only a tzinfo object has
a `localize` method, anything else raises `AttributeError`. -/
def Value.localizeDT : Value → DT → Except PyErr DT
  | .vtz tz, d => .ok (tz.localize d)
  | _, _ => .error .attributeError

/-- The UTC instant denoted by an aware datetime (none for a naive one). -/
def instant : DT → Option Int
  | ⟨w, some t⟩ => some (w - t.offset)
  | ⟨_, none⟩ => none

/-- First-match association-list lookup (Python dict read). -/
def lookupA {κ α : Type} [DecidableEq κ] : List (κ × α) → κ → Option α
  | [], _ => none
  | (k, v) :: rest, key => if k = key then some v else lookupA rest key

/-- First-match association-list replacement (Python dict write to an
existing key). -/
def replaceA {κ α : Type} [DecidableEq κ] : List (κ × α) → κ → α → List (κ × α)
  | [], _, _ => []
  | (k, v) :: rest, key, v2 =>
    if k = key then (k, v2) :: rest else (k, v) :: replaceA rest key v2

/-- The recognized zone table (`pytz.all_timezones_set` restricted to the
zones this development mentions), with fixed offsets in minutes. -/
def all_timezones : List (String × Int) :=
  [("UTC", 0), ("Europe/Moscow", 180), ("America/Chicago", -360)]

/-- `pytz.timezone(s)`: look the name up in the zone table, raising
`UnknownTimeZoneError` for an unrecognized name. -/
def pytz_timezone (s : String) : Except PyErr Timezone :=
  match lookupA all_timezones s with
  | some off => .ok ⟨s, off⟩
  | none => .error .unknownTimeZoneError

/-- A model attribute: a plain stored value or a zero-argument callable
(modelled by the value it returns). -/
inductive Attr where
  | plain (v : Value)
  | callable (v : Value)
deriving DecidableEq

/-- The part of a model instance the field code touches (see the module
comment). `rel` holds the `_x_cache` related-instance entries; `db` maps a
remaining lookup path to the first-row-first-column value the fallback query
`instance._default_manager.filter(pk=...).values_list(path)` would return —
a path absent from `db` models an empty queryset, whose `[0]` raises. -/
inductive PInstance : Type where
  | mk (raw canonical cache : Option Value)
       (attrs : List (String × Attr))
       (rel : List (String × PInstance))
       (db : List (List String × Value))

def PInstance.raw : PInstance → Option Value
  | .mk r _ _ _ _ _ => r

def PInstance.canonical : PInstance → Option Value
  | .mk _ c _ _ _ _ => c

def PInstance.cache : PInstance → Option Value
  | .mk _ _ ch _ _ _ => ch

def PInstance.attrs : PInstance → List (String × Attr)
  | .mk _ _ _ a _ _ => a

def PInstance.rel : PInstance → List (String × PInstance)
  | .mk _ _ _ _ rel _ => rel

def PInstance.db : PInstance → List (List String × Value)
  | .mk _ _ _ _ _ db => db

def PInstance.setRaw : PInstance → Option Value → PInstance
  | .mk _ c ch a rel db, v => .mk v c ch a rel db

def PInstance.setCanonical : PInstance → Option Value → PInstance
  | .mk r _ ch a rel db, v => .mk r v ch a rel db

def PInstance.setCache : PInstance → Option Value → PInstance
  | .mk r c _ a rel db, v => .mk r c v a rel db

def PInstance.setRel : PInstance → String → PInstance → PInstance
  | .mk r c ch a rel db, key, child => .mk r c ch a (replaceA rel key child) db

/-- The `timezone` argument a `TestDateTimeField` passes to `get_timezone`:
either a zero-argument callable (modelled by its result) or a string (an
attribute name or a dotted `__` lookup path). -/
inductive TzSource where
  | scall (v : Value)
  | sstr (s : String)

/-- What `contribute_to_class` installs under `fieldname_timezone`: a plain
class attribute holding a zone object (covering both a `None` source, which
installs `default_tz`, and a fixed zone), or a property backed by
`get_timezone` for callable and lookup sources. -/
inductive FieldTz where
  | fixedZone (tz : Timezone)
  | dynamic (src : TzSource)

/-- Split a character list on each `__` occurrence (Python
`s.split('__')`). -/
def splitDunderAux : List Char → List Char → List (List Char)
  | [], acc => [acc.reverse]
  | '_' :: '_' :: rest, acc => acc.reverse :: splitDunderAux rest []
  | c :: rest, acc => splitDunderAux rest (c :: acc)

/-- `s.split('__')`.  In particular `'__' in s` iff the result has more than
one part. -/
def split_dunder (s : String) : List String :=
  (splitDunderAux s.data []).map (fun l => String.mk l)

/-- The `'_%s_cache' % part` key used to walk cached related instances. -/
def cacheKey (p : String) : String := "_" ++ p ++ "_cache"

/-- fields.py lines 178-182: the tail of `get_timezone` — coerce a string
result through `pytz.timezone`, store the final value into the cache slot of
the current instance, and return it. -/
def cache_and_return (inst : PInstance) (tzv : Value) : Except PyErr (Value × PInstance) :=
  match tzv with
  | .vstr s =>
    (match pytz_timezone s with
     | .ok tz => .ok (.vtz tz, inst.setCache (some (.vtz tz)))
     | .error e => .error e)
  | v => .ok (v, inst.setCache (some v))

/-- fields.py lines 168-173: after the cache walk, either query the database
for a multi-part remaining path (an empty queryset raises `IndexError` at
`[0]`) or `getattr` the single remaining part (a missing attribute raises
`AttributeError`; a method attribute is not called on this path, yielding a
generic non-string object). -/
def dotted_value (inst : PInstance) (parts : List String) : Except PyErr Value :=
  match parts with
  | [] => .error .indexError
  | [p] =>
    (match lookupA inst.attrs p with
     | some (.plain v) => .ok v
     | some (.callable _) => .ok .vother
     | none => .error .attributeError)
  | _ =>
    (match lookupA inst.db parts with
     | some v => .ok v
     | none => .error .indexError)

/-- fields.py lines 160-182, the dotted-path branch of `get_timezone`: walk
`_part_cache` related instances while present (rebinding `instance`, so the
final cache write lands on the walked-to instance), raising `IndexError` if
the parts run out (`timezone_parts[0]` on an empty list); then fetch the
value for the remaining parts, replace a `None` result by the process
default zone `dtz`, and finish with the string coercion and cache write. -/
def resolve_dotted (dtz : Timezone) : PInstance → List String → Except PyErr (Value × PInstance)
  | _, [] => .error .indexError
  | inst, p :: rest =>
    match lookupA inst.rel (cacheKey p) with
    | some child =>
      (match resolve_dotted dtz child rest with
       | .ok (v, child2) => .ok (v, inst.setRel (cacheKey p) child2)
       | .error e => .error e)
    | none =>
      (match dotted_value inst (p :: rest) with
       | .ok v => cache_and_return inst (if v = .vnone then .vtz dtz else v)
       | .error e => .error e)

/-- fields.py lines 143-147: a cached datetime stands for its attached zone
(`value.tzinfo`, which is `None` for a naive cached datetime); any other
cached value is returned as-is. -/
def cachedTz : Value → Value
  | .vdt d => (match d.tz with | some tz => .vtz tz | none => .vnone)
  | v => v

/-- fields.py lines 137-182, `get_timezone(instance, timezone, cache_name)`:
if the cache slot is present, reuse it; otherwise resolve the source — call
a callable, `getattr` a plain attribute name (calling the result if it is
itself callable; a missing attribute raises `AttributeError`), or follow a
dotted lookup path — then coerce a string through `pytz.timezone`, cache and
return.  Only the dotted-path branch replaces a `None` result by the process
default zone `dtz`. -/
def get_timezone (dtz : Timezone) (inst : PInstance) (src : TzSource) : Except PyErr (Value × PInstance) :=
  match inst.cache with
  | some v => .ok (cachedTz v, inst)
  | none =>
    match src with
    | .scall v => cache_and_return inst v
    | .sstr s =>
      match split_dunder s with
      | [_] =>
        (match lookupA inst.attrs s with
         | some (.plain v) => cache_and_return inst v
         | some (.callable v) => cache_and_return inst v
         | none => .error .attributeError)
      | parts => resolve_dotted dtz inst parts

/-- `getattr(instance, field.get_timezone_name())`: read the class attribute
installed by `contribute_to_class` — a plain zone object, or the
`get_timezone`-backed property. -/
def get_timezone_attr (dtz : Timezone) (ftz : FieldTz) (inst : PInstance) : Except PyErr (Value × PInstance) :=
  match ftz with
  | .fixedZone tz => .ok (.vtz tz, inst)
  | .dynamic src => get_timezone dtz inst src

/-- fields.py lines 76-87, `TestDateTimeDescriptor.__set__`: store the value
into the `raw` slot unconditionally and delete the cache and canonical slots
if present. -/
def TestDateTimeDescriptor.set (inst : PInstance) (v : Value) : PInstance :=
  ((inst.setRaw (some v)).setCache none).setCanonical none

/-- Django `DateTimeField.to_python` (framework code): the identity on
datetimes and on `None`; other inputs go through string parsing, which this
model does not represent — they fail validation here. -/
def dt_to_python : Value → Except PyErr Value
  | .vnone => .ok .vnone
  | .vdt d => .ok (.vdt d)
  | _ => .error .validationError

/-- fields.py lines 89-117 without the cache fast path: the canonical slot,
if present, is treated as UTC (localized to `db_tz` when naive), converted
into the resolved zone and cached (a `None` canonical is cached and returned
as-is; `value.tzinfo` on a non-datetime raises); otherwise a datetime in the
`raw` slot is localized (if naive) or converted (if aware) into the resolved
zone and cached, and a non-datetime `raw` value is returned unchanged. -/
def descr_get_uncached (dtz : Timezone) (ftz : FieldTz) (inst : PInstance) : Except PyErr (Value × PInstance) :=
  match inst.canonical with
  | some .vnone => .ok (.vnone, inst.setCache (some .vnone))
  | some (.vdt d) =>
    (match get_timezone_attr dtz ftz inst with
     | .ok (tzv, inst2) =>
       (match DT.astimezoneV (match d.tz with | none => db_tz.localize d | some _ => d) tzv with
        | .ok d2 => .ok (.vdt d2, inst2.setCache (some (.vdt d2)))
        | .error e => .error e)
     | .error e => .error e)
  | some _ => .error .attributeError
  | none =>
    match inst.raw with
    | some (.vdt d) =>
      (match get_timezone_attr dtz ftz inst with
       | .ok (tzv, inst2) =>
         (match (match d.tz with | none => tzv.localizeDT d | some _ => d.astimezoneV tzv) with
          | .ok d2 => .ok (.vdt d2, inst2.setCache (some (.vdt d2)))
          | .error e => .error e)
       | .error e => .error e)
    | some v => .ok (v, inst)
    | none => .error .keyError

/-- fields.py lines 89-117, `TestDateTimeDescriptor.__get__`: return a cached
datetime unchanged, else fall through to the uncached logic. -/
def TestDateTimeDescriptor.get (dtz : Timezone) (ftz : FieldTz) (inst : PInstance) : Except PyErr (Value × PInstance) :=
  match inst.cache with
  | some (.vdt d) => .ok (.vdt d, inst)
  | _ => descr_get_uncached dtz ftz inst

/-- fields.py lines 119-135, `TestDateTimeDescriptor.get_for_save`: if the
canonical slot is present, return it, localizing a naive value to `db_tz`
(a non-`None` non-datetime raises at `value.tzinfo`); otherwise run the raw
slot through the field's `to_python`, localize a naive result into the
resolved zone, and convert to `db_tz`. -/
def TestDateTimeDescriptor.get_for_save (dtz : Timezone) (ftz : FieldTz) (inst : PInstance) : Except PyErr (Value × PInstance) :=
  match inst.canonical with
  | some .vnone => .ok (.vnone, inst)
  | some (.vdt d) =>
    .ok (.vdt (match d.tz with | none => db_tz.localize d | some _ => d), inst)
  | some _ => .error .attributeError
  | none =>
    match inst.raw with
    | none => .error .keyError
    | some rv =>
      match dt_to_python rv with
      | .error e => .error e
      | .ok .vnone => .ok (.vnone, inst)
      | .ok (.vdt d) =>
        (match d.tz with
         | none =>
           (match get_timezone_attr dtz ftz inst with
            | .ok (tzv, inst2) =>
              (match tzv.localizeDT d with
               | .ok d1 =>
                 (match d1.astimezone db_tz with
                  | .ok d2 => .ok (.vdt d2, inst2)
                  | .error e => .error e)
               | .error e => .error e)
            | .error e => .error e)
         | some _ =>
           (match d.astimezone db_tz with
            | .ok d2 => .ok (.vdt d2, inst)
            | .error e => .error e))
      | .ok v => .ok (v, inst)

/-- fields.py lines 199-210, `TestDateTimeField.get_prep_value`: run the
value through `to_python`; a naive datetime is localized into the process
default zone `dtz` and the result converted to `db_tz`; `None` stays
`None`. -/
def TestDateTimeField.get_prep_value (dtz : Timezone) (v : Value) : Except PyErr Value :=
  match dt_to_python v with
  | .error e => .error e
  | .ok .vnone => .ok .vnone
  | .ok (.vdt d) =>
    (match DT.astimezone (match d.tz with | none => dtz.localize d | some _ => d) db_tz with
     | .ok d2 => .ok (.vdt d2)
     | .error e => .error e)
  | .ok v2 => .ok v2

/-- The input space of `TimeZoneField.to_python`: a zone-name string or a
zone object. -/
inductive TZVal where
  | s (name : String)
  | z (tz : Timezone)
deriving DecidableEq

/-- Django `smart_unicode` (framework code) on the values a `TimeZoneField`
holds: a string is itself, a zone object prints as its zone name. -/
def smart_unicode : TZVal → String
  | .s n => n
  | .z tz => tz.name

/-- Modelled from the spec: `timezones.utils.coerce_timezone_value` is not
under src/ (only its caller `TimeZoneField.to_python` is).  Per the spec it
coerces any input — string or zone object — into a normalized, validated
zone representation, failing with the `InvalidTimeZone` error kind when the
value does not name a zone of the enumerated allow-list. -/
def coerce_timezone_value (v : TZVal) : Except PyErr Timezone :=
  match pytz_timezone (smart_unicode v) with
  | .ok tz => .ok tz
  | .error _ => .error .invalidTimeZone

/-- fields.py lines 44-48, `TimeZoneField.to_python`: `None` stays `None`
(`null=True`), anything else goes through `coerce_timezone_value`. -/
def TimeZoneField.to_python : Option TZVal → Except PyErr (Option Timezone)
  | none => .ok none
  | some v =>
    (match coerce_timezone_value v with
     | .ok tz => .ok (some tz)
     | .error e => .error e)

/-- fields.py lines 50-53, `TimeZoneField.get_prep_value`: `None` stays
`None`, anything else is stored as its unicode string form; no allow-list
validation happens on this path. -/
def TimeZoneField.get_prep_value : Option TZVal → Option String
  | none => none
  | some v => some (smart_unicode v)

/-- fields.py lines 55-59, `TimeZoneField.get_db_prep_save`: delegates to
`get_prep_value`. -/
def TimeZoneField.get_db_prep_save (v : Option TZVal) : Option String :=
  TimeZoneField.get_prep_value v

/-- Modelled from the spec: `timezones.utils.validate_timezone_max_length`
is not under src/ (only its call in `TimeZoneField.__init__` is).  Per the
spec it asserts at field-declaration time that the configured maximum length
can hold the longest recognized zone identifier, raising the
`MisconfiguredMaxLength` error kind otherwise. -/
def validate_timezone_max_length (maxLen : Nat) (zoneNames : List String) : Except PyErr Unit :=
  if zoneNames.all (fun z => decide (z.length ≤ maxLen)) then .ok ()
  else .error .misconfiguredMaxLength

/-- The configuration a successfully constructed `TimeZoneField` passes to
its `CharField` base. -/
structure TimeZoneFieldCfg where
  max_length : Nat
  defaultVal : String
deriving DecidableEq

/-- fields.py lines 26-34, `TimeZoneField.__init__`: validate the configured
maximum length against the recognized zone names before doing anything else,
then construct with `max_length` and the process zone setting as default. -/
def TimeZoneField.init (maxLen : Nat) (zoneNames : List String) (timeZoneSetting : String) : Except PyErr TimeZoneFieldCfg :=
  match validate_timezone_max_length maxLen zoneNames with
  | .ok _ => .ok ⟨maxLen, timeZoneSetting⟩
  | .error e => .error e

/-- Named zones for concrete instances (offsets at the spec's example
instants: Moscow +3:00, Chicago -6:00). -/
def moscow : Timezone := ⟨ "Europe/Moscow", 180⟩

def chicago : Timezone := ⟨ "America/Chicago", -360⟩

/-- An instance with empty slots, attributes and database. -/
def inst0 : PInstance := .mk none none none [] [] []

/-- An instance whose database holds a NULL value for the path `rel__tz`. -/
def instDbNull : PInstance := .mk none none none [] [] [([ "rel", "tz"], .vnone)]

/-- An instance with a simple attribute `tz` holding `None`. -/
def instAttrNone : PInstance := .mk none none none [("tz", .plain .vnone)] [] []

/-- An instance whose canonical slot holds an aware Moscow datetime. -/
def instCanonMoscow : PInstance := .mk none (some (.vdt ⟨540, some moscow⟩)) none [] [] []

/-- An instance whose canonical slot holds a naive datetime (minute 360). -/
def instCanonNaive : PInstance := .mk none (some (.vdt ⟨360, none⟩)) none [] [] []

/-- An instance with data in all three slots, including a stale resolved
cache. -/
def instStale : PInstance :=
  .mk (some (.vdt ⟨0, none⟩)) (some (.vdt ⟨120, none⟩)) (some (.vdt ⟨999, some moscow⟩)) [] [] []

/-- A naive raw datetime, a cached aware Moscow datetime, and a zone
attribute `tzattr` holding Chicago. -/
def instC7a : PInstance :=
  .mk (some (.vdt ⟨540, none⟩)) none (some (.vdt ⟨0, some moscow⟩)) [("tzattr", .plain (.vtz chicago))] [] []

/-- Like `instC7a` but with the cache slot absent. -/
def instC7b : PInstance :=
  .mk (some (.vdt ⟨540, none⟩)) none none [("tzattr", .plain (.vtz chicago))] [] []

/-- An instance whose raw slot holds a plain `None`. -/
def instRawNone : PInstance := .mk (some .vnone) none none [] [] []

/-! Helper lemmas about the instance state. -/

theorem raw_setCache (i : PInstance) (v : Option Value) : (i.setCache v).raw = i.raw := by
  cases i; rfl

theorem canonical_setCache (i : PInstance) (v : Option Value) : (i.setCache v).canonical = i.canonical := by
  cases i; rfl

theorem cache_setCache (i : PInstance) (v : Option Value) : (i.setCache v).cache = v := by
  cases i; rfl

theorem attrs_setCache (i : PInstance) (v : Option Value) : (i.setCache v).attrs = i.attrs := by
  cases i; rfl

theorem rel_setCache (i : PInstance) (v : Option Value) : (i.setCache v).rel = i.rel := by
  cases i; rfl

theorem db_setCache (i : PInstance) (v : Option Value) : (i.setCache v).db = i.db := by
  cases i; rfl

theorem raw_setRel (i : PInstance) (k : String) (c : PInstance) : (i.setRel k c).raw = i.raw := by
  cases i; rfl

theorem canonical_setRel (i : PInstance) (k : String) (c : PInstance) : (i.setRel k c).canonical = i.canonical := by
  cases i; rfl

theorem cache_setRel (i : PInstance) (k : String) (c : PInstance) : (i.setRel k c).cache = i.cache := by
  cases i; rfl

theorem attrs_setRel (i : PInstance) (k : String) (c : PInstance) : (i.setRel k c).attrs = i.attrs := by
  cases i; rfl

theorem rel_setRel (i : PInstance) (k : String) (c : PInstance) : (i.setRel k c).rel = replaceA i.rel k c := by
  cases i; rfl

theorem db_setRel (i : PInstance) (k : String) (c : PInstance) : (i.setRel k c).db = i.db := by
  cases i; rfl

theorem setCache_setCache (i : PInstance) (v w : Option Value) :
    (i.setCache v).setCache w = i.setCache w := by
  cases i; rfl

theorem raw_descr_set (i : PInstance) (v : Value) : (TestDateTimeDescriptor.set i v).raw = some v := by
  cases i; rfl

theorem canonical_descr_set (i : PInstance) (v : Value) : (TestDateTimeDescriptor.set i v).canonical = none := by
  cases i; rfl

theorem cache_descr_set (i : PInstance) (v : Value) : (TestDateTimeDescriptor.set i v).cache = none := by
  cases i; rfl

theorem lookupA_replaceA {κ α : Type} [DecidableEq κ] (l : List (κ × α)) (k : κ) (c c2 : α)
    (h : lookupA l k = some c) : lookupA (replaceA l k c2) k = some c2 := by
  induction l with
  | nil => simp [lookupA] at h
  | cons hd tl ih =>
    obtain ⟨k0, v0⟩ := hd
    by_cases hk : k0 = k
    · subst hk
      simp [lookupA, replaceA]
    · simp only [lookupA, replaceA, if_neg hk] at h ⊢
      exact ih h

theorem replaceA_idem {κ α : Type} [DecidableEq κ] (l : List (κ × α)) (k : κ) (c : α) :
    replaceA (replaceA l k c) k c = replaceA l k c := by
  induction l with
  | nil => rfl
  | cons hd tl ih =>
    obtain ⟨k0, v0⟩ := hd
    by_cases hk : k0 = k
    · subst hk
      simp [replaceA]
    · simp only [replaceA, if_neg hk]
      exact congrArg _ ih

theorem setRel_setRel (i : PInstance) (k : String) (c : PInstance) :
    (i.setRel k c).setRel k c = i.setRel k c := by
  cases i
  simp [PInstance.setRel, replaceA_idem]

theorem cache_and_return_ok (inst : PInstance) (w v : Value) (i2 : PInstance)
    (h : cache_and_return inst w = .ok (v, i2)) : i2 = inst.setCache (some v) := by
  cases w <;> simp only [cache_and_return] at h
  case vstr s =>
    split at h
    · simp only [Except.ok.injEq, Prod.mk.injEq] at h
      obtain ⟨h1, h2⟩ := h
      rw [← h2, ← h1]
    · simp at h
  all_goals
    simp only [Except.ok.injEq, Prod.mk.injEq] at h
    obtain ⟨h1, h2⟩ := h
    rw [← h2, ← h1]

theorem cache_and_return_again (inst : PInstance) (w v : Value) (i2 : PInstance)
    (h : cache_and_return inst w = .ok (v, i2)) :
    cache_and_return i2 w = .ok (v, i2) := by
  have hi2 := cache_and_return_ok inst w v i2 h
  subst hi2
  cases w <;> simp only [cache_and_return] at h ⊢
  case vstr s =>
    cases hp : pytz_timezone s
    case error => simp [hp] at h
    case ok tz =>
      simp only [hp] at h ⊢
      simp only [Except.ok.injEq, Prod.mk.injEq] at h ⊢
      obtain ⟨h1, -⟩ := h
      rw [h1, setCache_setCache]
      exact ⟨rfl, rfl⟩
  all_goals
    simp only [Except.ok.injEq, Prod.mk.injEq] at h ⊢
    obtain ⟨h1, -⟩ := h
    rw [h1, setCache_setCache]
    exact ⟨rfl, rfl⟩

theorem dotted_value_eq_of (i j : PInstance) (parts : List String)
    (hA : j.attrs = i.attrs) (hD : j.db = i.db) :
    dotted_value j parts = dotted_value i parts := by
  cases parts with
  | nil => rfl
  | cons p rest =>
    cases rest with
    | nil => simp [dotted_value, hA]
    | cons q r => simp [dotted_value, hD]

theorem resolve_dotted_fix (parts : List String) :
    ∀ (dtz : Timezone) (inst : PInstance) (v : Value) (i2 : PInstance),
      resolve_dotted dtz inst parts = .ok (v, i2) →
      resolve_dotted dtz i2 parts = .ok (v, i2)
      ∧ i2.raw = inst.raw ∧ i2.canonical = inst.canonical
      ∧ (i2.cache = inst.cache ∨ i2.cache = some v) := by
  induction parts with
  | nil =>
    intro dtz inst v i2 h
    simp [resolve_dotted] at h
  | cons p rest ih =>
    intro dtz inst v i2 h
    simp only [resolve_dotted] at h
    split at h
    next child heq =>
      split at h
      next v0 child2 heq2 =>
        simp only [Except.ok.injEq, Prod.mk.injEq] at h
        obtain ⟨hv, hi⟩ := h
        subst hi
        subst hv
        obtain ⟨hfix, hraw, hcanon, hcache⟩ := ih dtz child v0 child2 heq2
        have hl : lookupA (inst.setRel (cacheKey p) child2).rel (cacheKey p) = some child2 := by
          rw [rel_setRel]
          exact lookupA_replaceA inst.rel (cacheKey p) child child2 heq
        refine ⟨?_, raw_setRel inst _ _, canonical_setRel inst _ _, Or.inl (cache_setRel inst _ _)⟩
        simp only [resolve_dotted, hl, hfix]
        rw [setRel_setRel]
      next e heq2 => exact absurd h (by simp)
    next heq =>
      split at h
      next v0 heq2 =>
        have hok := cache_and_return_ok _ _ _ _ h
        subst hok
        refine ⟨?_, raw_setCache inst _, canonical_setCache inst _, Or.inr (cache_setCache inst _)⟩
        have hrel2 : lookupA (inst.setCache (some v)).rel (cacheKey p) = none := by
          rw [rel_setCache]
          exact heq
        have hdv2 : dotted_value (inst.setCache (some v)) (p :: rest) = .ok v0 := by
          rw [dotted_value_eq_of inst (inst.setCache (some v)) (p :: rest) (attrs_setCache inst _) (db_setCache inst _)]
          exact heq2
        simp only [resolve_dotted, hrel2, hdv2]
        exact cache_and_return_again _ _ _ _ h
      next e heq2 => exact absurd h (by simp)

theorem get_timezone_fix (dtz : Timezone) (inst : PInstance) (src : TzSource) (tz : Timezone) (i2 : PInstance)
    (h : get_timezone dtz inst src = .ok (.vtz tz, i2)) :
    get_timezone dtz i2 src = .ok (.vtz tz, i2)
    ∧ i2.raw = inst.raw ∧ i2.canonical = inst.canonical
    ∧ (i2.cache = inst.cache ∨ i2.cache = some (.vtz tz)) := by
  unfold get_timezone at h
  cases hc : inst.cache with
  | some c =>
    rw [hc] at h
    dsimp only at h
    simp only [Except.ok.injEq, Prod.mk.injEq] at h
    obtain ⟨h1, h2⟩ := h
    refine ⟨?_, by rw [← h2], by rw [← h2], Or.inl (by rw [← h2]; exact hc)⟩
    unfold get_timezone
    rw [← h2, hc]
    dsimp only
    rw [h1]
  | none =>
    rw [hc] at h
    dsimp only at h
    have hcachehit : ∀ (j : PInstance), j.cache = some (.vtz tz) →
        get_timezone dtz j src = .ok (.vtz tz, j) := by
      intro j hj
      unfold get_timezone
      rw [hj]
      rfl
    cases src with
    | scall w =>
      dsimp only at h
      have hok := cache_and_return_ok _ _ _ _ h
      subst hok
      exact ⟨hcachehit _ (cache_setCache inst _), raw_setCache inst _,
        canonical_setCache inst _, Or.inr (cache_setCache inst _)⟩
    | sstr s =>
      dsimp only at h
      cases hsp : split_dunder s with
      | nil =>
        rw [hsp] at h
        simp [resolve_dotted] at h
      | cons p t =>
        cases t with
        | nil =>
          rw [hsp] at h
          dsimp only at h
          split at h
          next w heq =>
            have hok := cache_and_return_ok _ _ _ _ h
            subst hok
            exact ⟨hcachehit _ (cache_setCache inst _), raw_setCache inst _,
              canonical_setCache inst _, Or.inr (cache_setCache inst _)⟩
          next w heq =>
            have hok := cache_and_return_ok _ _ _ _ h
            subst hok
            exact ⟨hcachehit _ (cache_setCache inst _), raw_setCache inst _,
              canonical_setCache inst _, Or.inr (cache_setCache inst _)⟩
          next heq => exact absurd h (by simp)
        | cons q r =>
          rw [hsp] at h
          dsimp only at h
          obtain ⟨hfix, hraw, hcanon, hcache⟩ := resolve_dotted_fix (p :: q :: r) dtz inst (.vtz tz) i2 h
          refine ⟨?_, hraw, hcanon, ?_⟩
          case _ =>
            cases hcache with
            | inl hl =>
              unfold get_timezone
              rw [hl, hc]
              dsimp only
              rw [hsp]
              dsimp only
              exact hfix
            | inr hr => exact hcachehit i2 hr
          case _ =>
            rw [hc] at hcache
            exact hcache

theorem get_timezone_attr_fix (dtz : Timezone) (ftz : FieldTz) (inst : PInstance) (tz : Timezone) (i2 : PInstance)
    (h : get_timezone_attr dtz ftz inst = .ok (.vtz tz, i2)) :
    get_timezone_attr dtz ftz i2 = .ok (.vtz tz, i2)
    ∧ i2.raw = inst.raw ∧ i2.canonical = inst.canonical
    ∧ (i2.cache = inst.cache ∨ i2.cache = some (.vtz tz)) := by
  cases ftz with
  | fixedZone t =>
    simp only [get_timezone_attr] at h ⊢
    simp only [Except.ok.injEq, Prod.mk.injEq, Value.vtz.injEq] at h
    obtain ⟨h1, h2⟩ := h
    subst h1
    subst h2
    exact ⟨rfl, rfl, rfl, Or.inl rfl⟩
  | dynamic src => exact get_timezone_fix dtz inst src tz i2 h

/-- C7 (amended): calling `get_for_save` twice in a row without an
intervening assignment returns the same UTC value both times (the second
call also leaves the state fixed); the raw and canonical slots are unchanged
by the call; the cache slot is unchanged except that the resolver may
memoize the resolved zone into it. -/
theorem spec_c7_get_for_save_idem (dtz : Timezone) (ftz : FieldTz) (inst : PInstance)
    (r : Value) (inst2 : PInstance)
    (h : TestDateTimeDescriptor.get_for_save dtz ftz inst = .ok (r, inst2)) :
    TestDateTimeDescriptor.get_for_save dtz ftz inst2 = .ok (r, inst2)
    ∧ inst2.raw = inst.raw ∧ inst2.canonical = inst.canonical
    ∧ (inst2.cache = inst.cache ∨ ∃ tz, inst2.cache = some (.vtz tz)) := by
  unfold TestDateTimeDescriptor.get_for_save at h
  cases hc : inst.canonical with
  | some cv =>
    rw [hc] at h
    cases cv with
    | vnone =>
      dsimp only at h
      simp only [Except.ok.injEq, Prod.mk.injEq] at h
      obtain ⟨h1, h2⟩ := h
      subst h2
      refine ⟨?_, rfl, hc, Or.inl rfl⟩
      unfold TestDateTimeDescriptor.get_for_save
      rw [hc]
      dsimp only
      rw [h1]
    | vdt d =>
      dsimp only at h
      simp only [Except.ok.injEq, Prod.mk.injEq] at h
      obtain ⟨h1, h2⟩ := h
      subst h2
      refine ⟨?_, rfl, hc, Or.inl rfl⟩
      unfold TestDateTimeDescriptor.get_for_save
      rw [hc]
      dsimp only
      rw [h1]
    | vtz t =>
      dsimp only at h
      exact absurd h (by simp)
    | vstr s =>
      dsimp only at h
      exact absurd h (by simp)
    | vother =>
      dsimp only at h
      exact absurd h (by simp)
  | none =>
    rw [hc] at h
    dsimp only at h
    cases hr : inst.raw with
    | none =>
      rw [hr] at h
      dsimp only at h
      exact absurd h (by simp)
    | some rv =>
      rw [hr] at h
      dsimp only at h
      cases rv with
      | vnone =>
        dsimp only [dt_to_python] at h
        simp only [Except.ok.injEq, Prod.mk.injEq] at h
        obtain ⟨h1, h2⟩ := h
        subst h2
        refine ⟨?_, hr, hc, Or.inl rfl⟩
        unfold TestDateTimeDescriptor.get_for_save
        rw [hc]
        dsimp only
        rw [hr]
        dsimp only [dt_to_python]
        rw [h1]
      | vtz t =>
        dsimp only [dt_to_python] at h
        exact absurd h (by simp)
      | vstr s =>
        dsimp only [dt_to_python] at h
        exact absurd h (by simp)
      | vother =>
        dsimp only [dt_to_python] at h
        exact absurd h (by simp)
      | vdt d =>
        obtain ⟨w, wtz⟩ := d
        dsimp only [dt_to_python] at h
        cases wtz with
        | some t =>
          dsimp only [DT.astimezone] at h
          simp only [Except.ok.injEq, Prod.mk.injEq] at h
          obtain ⟨h1, h2⟩ := h
          subst h2
          refine ⟨?_, hr, hc, Or.inl rfl⟩
          unfold TestDateTimeDescriptor.get_for_save
          rw [hc]
          dsimp only
          rw [hr]
          dsimp only [dt_to_python, DT.astimezone]
          rw [h1]
        | none =>
          dsimp only at h
          split at h
          next tzv i1 heq =>
            split at h
            next d1 heq2 =>
              cases tzv with
              | vtz tzr =>
                dsimp only [Value.localizeDT, Timezone.localize] at heq2
                simp only [Except.ok.injEq] at heq2
                subst heq2
                dsimp only [DT.astimezone] at h
                simp only [Except.ok.injEq, Prod.mk.injEq] at h
                obtain ⟨h1, h2⟩ := h
                subst h2
                obtain ⟨hfixA, hraw, hcanon, hcache⟩ :=
                  get_timezone_attr_fix dtz ftz inst tzr i1 heq
                have hcan1 : i1.canonical = none := by rw [hcanon]; exact hc
                have hraw1 : i1.raw = some (.vdt ⟨w, none⟩) := by rw [hraw]; exact hr
                refine ⟨?_, hraw1, hcan1, ?_⟩
                case _ =>
                  unfold TestDateTimeDescriptor.get_for_save
                  rw [hcan1]
                  dsimp only
                  rw [hraw1]
                  dsimp only [dt_to_python]
                  rw [hfixA]
                  dsimp only [Value.localizeDT, Timezone.localize, DT.astimezone]
                  rw [h1]
                case _ =>
                  cases hcache with
                  | inl hl => exact Or.inl hl
                  | inr hrr => exact Or.inr ⟨tzr, hrr⟩
              | vnone => simp [Value.localizeDT] at heq2
              | vdt dd => simp [Value.localizeDT] at heq2
              | vstr ss => simp [Value.localizeDT] at heq2
              | vother => simp [Value.localizeDT] at heq2
            next e heq2 => exact absurd h (by simp)
          next e heq => exact absurd h (by simp)

/-- C7 counterexample: two states that agree on the raw and canonical slots
but differ in the resolvedCache slot give different `get_for_save` results —
the resolver reuses the zone of a cached datetime — so `get_for_save` does
read the resolvedCache slot, contrary to the claim. -/
theorem spec_c7_counterexample :
    instC7a.raw = instC7b.raw ∧ instC7a.canonical = instC7b.canonical
    ∧ instC7a.cache ≠ instC7b.cache
    ∧ Except.map Prod.fst
        (TestDateTimeDescriptor.get_for_save chicago (.dynamic (.sstr "tzattr")) instC7a)
        = .ok (.vdt ⟨360, some db_tz⟩)
    ∧ Except.map Prod.fst
        (TestDateTimeDescriptor.get_for_save chicago (.dynamic (.sstr "tzattr")) instC7b)
        = .ok (.vdt ⟨900, some db_tz⟩)
    ∧ (Value.vdt ⟨360, some db_tz⟩ : Value) ≠ .vdt ⟨900, some db_tz⟩ :=
  ⟨rfl, rfl, by decide, rfl, rfl, by decide⟩

/-- C7 witness: a second `get_for_save` on the state left by a first call —
which memoized the Chicago zone — returns the same UTC value and leaves the
state unchanged. -/
theorem spec_c7_witness :
    TestDateTimeDescriptor.get_for_save chicago (.dynamic (.sstr "tzattr"))
        (instC7b.setCache (some (.vtz chicago)))
      = .ok (.vdt ⟨900, some db_tz⟩, instC7b.setCache (some (.vtz chicago)))
    ∧ (instC7b.setCache (some (.vtz chicago))).raw = instC7b.raw
    ∧ (instC7b.setCache (some (.vtz chicago))).canonical = instC7b.canonical
    ∧ ((instC7b.setCache (some (.vtz chicago))).cache = instC7b.cache
       ∨ ∃ tz, (instC7b.setCache (some (.vtz chicago))).cache = some (.vtz tz)) :=
  spec_c7_get_for_save_idem chicago (.dynamic (.sstr "tzattr")) instC7b
    (.vdt ⟨900, some db_tz⟩) (instC7b.setCache (some (.vtz chicago))) rfl

/-- C1: after `Set(v)` with `v` a naive datetime, `get_for_save` returns `v`
localized into the record's resolved zone `Z` and then converted to UTC —
and, whenever the resolved and default offsets differ, this is not `v`
localized into the process default zone. -/
theorem spec_c1_set_get_for_save (dtz : Timezone) (ftz : FieldTz) (inst : PInstance)
    (d : DT) (Z : Timezone) (inst2 : PInstance) (dd : DT)
    (hnaive : d.tz = none)
    (hz : get_timezone_attr dtz ftz (TestDateTimeDescriptor.set inst (.vdt d)) = .ok (.vtz Z, inst2))
    (hconv : (Z.localize d).astimezone db_tz = .ok dd) :
    TestDateTimeDescriptor.get_for_save dtz ftz (TestDateTimeDescriptor.set inst (.vdt d))
      = .ok (.vdt dd, inst2)
    ∧ (Z.offset ≠ dtz.offset →
        TestDateTimeDescriptor.get_for_save dtz ftz (TestDateTimeDescriptor.set inst (.vdt d))
          ≠ .ok (.vdt ⟨d.wall - dtz.offset + db_tz.offset, some db_tz⟩, inst2)) := by
  obtain ⟨w, wtz⟩ := d
  subst hnaive
  dsimp only [Timezone.localize, DT.astimezone] at hconv
  simp only [Except.ok.injEq] at hconv
  have hmain : TestDateTimeDescriptor.get_for_save dtz ftz
      (TestDateTimeDescriptor.set inst (.vdt ⟨w, none⟩)) = .ok (.vdt dd, inst2) := by
    unfold TestDateTimeDescriptor.get_for_save
    rw [canonical_descr_set]
    dsimp only
    rw [raw_descr_set]
    dsimp only [dt_to_python]
    rw [hz]
    dsimp only [Value.localizeDT, Timezone.localize, DT.astimezone]
    rw [hconv]
  refine ⟨hmain, ?_⟩
  intro hne hcontra
  rw [hmain] at hcontra
  simp only [Except.ok.injEq, Prod.mk.injEq, Value.vdt.injEq] at hcontra
  obtain ⟨hdd, -⟩ := hcontra
  rw [← hconv] at hdd
  simp only [DT.mk.injEq, db_tz] at hdd
  obtain ⟨hw, -⟩ := hdd
  omega

/-- C1 witness: the spec's example — naive 09:00 (minute 540) with resolved
zone Europe/Moscow and process default America/Chicago saves as 06:00 UTC
(minute 360), not as the Chicago-localized instant. -/
theorem spec_c1_witness :
    TestDateTimeDescriptor.get_for_save chicago (.fixedZone moscow)
        (TestDateTimeDescriptor.set inst0 (.vdt ⟨540, none⟩))
      = .ok (.vdt ⟨360, some db_tz⟩, TestDateTimeDescriptor.set inst0 (.vdt ⟨540, none⟩))
    ∧ (moscow.offset ≠ chicago.offset →
        TestDateTimeDescriptor.get_for_save chicago (.fixedZone moscow)
            (TestDateTimeDescriptor.set inst0 (.vdt ⟨540, none⟩))
          ≠ .ok (.vdt ⟨(⟨540, none⟩ : DT).wall - chicago.offset + db_tz.offset, some db_tz⟩,
                 TestDateTimeDescriptor.set inst0 (.vdt ⟨540, none⟩))) :=
  spec_c1_set_get_for_save chicago (.fixedZone moscow) inst0 ⟨540, none⟩ moscow
    (TestDateTimeDescriptor.set inst0 (.vdt ⟨540, none⟩)) ⟨360, some db_tz⟩ rfl rfl rfl

/-- C3: `Set(v)` stores `v` into the raw slot unconditionally and clears the
resolvedCache and canonical slots; consequently the next `Get()` reflects
the newly assigned value (the localized new datetime, or the new value
itself if it is not a datetime), not any stale cached datetime. -/
theorem spec_c3_set_semantics (dtz : Timezone) (ftz : FieldTz) (inst : PInstance) (v : Value) :
    (TestDateTimeDescriptor.set inst v).raw = some v
    ∧ (TestDateTimeDescriptor.set inst v).cache = none
    ∧ (TestDateTimeDescriptor.set inst v).canonical = none
    ∧ (∀ (d : DT) (Z : Timezone) (inst2 : PInstance) (d2 : DT), d.tz = none →
        get_timezone_attr dtz ftz (TestDateTimeDescriptor.set inst (.vdt d)) = .ok (.vtz Z, inst2) →
        Value.localizeDT (.vtz Z) d = .ok d2 →
        TestDateTimeDescriptor.get dtz ftz (TestDateTimeDescriptor.set inst (.vdt d))
          = .ok (.vdt d2, inst2.setCache (some (.vdt d2))))
    ∧ (∀ (d : DT) (t Z : Timezone) (inst2 : PInstance) (d2 : DT), d.tz = some t →
        get_timezone_attr dtz ftz (TestDateTimeDescriptor.set inst (.vdt d)) = .ok (.vtz Z, inst2) →
        d.astimezoneV (.vtz Z) = .ok d2 →
        TestDateTimeDescriptor.get dtz ftz (TestDateTimeDescriptor.set inst (.vdt d))
          = .ok (.vdt d2, inst2.setCache (some (.vdt d2))))
    ∧ (∀ (w : Value), (∀ d, w ≠ .vdt d) →
        TestDateTimeDescriptor.get dtz ftz (TestDateTimeDescriptor.set inst w)
          = .ok (w, TestDateTimeDescriptor.set inst w)) := by
  refine ⟨raw_descr_set inst v, cache_descr_set inst v, canonical_descr_set inst v, ?_, ?_, ?_⟩
  · intro d Z inst2 d2 hn hz hloc
    obtain ⟨w, wtz⟩ := d
    subst hn
    unfold TestDateTimeDescriptor.get
    rw [cache_descr_set]
    dsimp only
    unfold descr_get_uncached
    rw [canonical_descr_set]
    dsimp only
    rw [raw_descr_set]
    dsimp only
    rw [hz]
    dsimp only
    rw [hloc]
  · intro d t Z inst2 d2 ha hz hconv
    obtain ⟨w, wtz⟩ := d
    subst ha
    unfold TestDateTimeDescriptor.get
    rw [cache_descr_set]
    dsimp only
    unfold descr_get_uncached
    rw [canonical_descr_set]
    dsimp only
    rw [raw_descr_set]
    dsimp only
    rw [hz]
    dsimp only
    rw [hconv]
  · intro w hw
    unfold TestDateTimeDescriptor.get
    rw [cache_descr_set]
    dsimp only
    unfold descr_get_uncached
    rw [canonical_descr_set]
    dsimp only
    rw [raw_descr_set]
    cases w with
    | vdt d => exact absurd rfl (hw d)
    | vnone => rfl
    | vtz t => rfl
    | vstr s => rfl
    | vother => rfl

/-- C3 witness: on a record with data in every slot (including a stale
cached Moscow datetime at minute 999), assigning a new naive datetime
(minute 540) clears the cache and the canonical slot, and the next `Get()`
returns the new value localized into Moscow, while assigning `None` makes
`Get()` return `None`. -/
theorem spec_c3_witness :
    (TestDateTimeDescriptor.set instStale (.vdt ⟨540, none⟩)).raw = some (.vdt ⟨540, none⟩)
    ∧ (TestDateTimeDescriptor.set instStale (.vdt ⟨540, none⟩)).cache = none
    ∧ (TestDateTimeDescriptor.set instStale (.vdt ⟨540, none⟩)).canonical = none
    ∧ TestDateTimeDescriptor.get chicago (.fixedZone moscow)
        (TestDateTimeDescriptor.set instStale (.vdt ⟨540, none⟩))
        = .ok (.vdt ⟨540, some moscow⟩,
               (TestDateTimeDescriptor.set instStale (.vdt ⟨540, none⟩)).setCache
                 (some (.vdt ⟨540, some moscow⟩)))
    ∧ TestDateTimeDescriptor.get chicago (.fixedZone moscow)
        (TestDateTimeDescriptor.set instStale .vnone)
        = .ok (.vnone, TestDateTimeDescriptor.set instStale .vnone) := by
  obtain ⟨h1, h2, h3, h4, -, h6⟩ :=
    spec_c3_set_semantics chicago (.fixedZone moscow) instStale (.vdt ⟨540, none⟩)
  exact ⟨h1, h2, h3,
    h4 ⟨540, none⟩ moscow (TestDateTimeDescriptor.set instStale (.vdt ⟨540, none⟩))
      ⟨540, some moscow⟩ rfl rfl rfl,
    h6 .vnone (by intro d hd; cases hd)⟩

/-- C4 counterexample: an aware Moscow canonical value is returned by
`get_for_save` unchanged, still carrying the Moscow zone — the returned
value does not carry the UTC zone. -/
theorem spec_c4_counterexample :
    TestDateTimeDescriptor.get_for_save chicago (.fixedZone moscow) instCanonMoscow
      = .ok (.vdt ⟨540, some moscow⟩, instCanonMoscow)
    ∧ (⟨540, some moscow⟩ : DT).tz ≠ some db_tz :=
  ⟨rfl, by decide⟩

/-- C4 (amended): when the canonical slot holds a datetime, `get_for_save`
localizes a naive value as UTC (so that result carries the UTC zone), and
returns an aware value unchanged — denoting the same UTC instant as its UTC
conversion, though possibly carrying a non-UTC zone. -/
theorem spec_c4_canonical_utc (dtz : Timezone) (ftz : FieldTz) (inst : PInstance) (d : DT)
    (h : inst.canonical = some (.vdt d)) :
    (d.tz = none →
      TestDateTimeDescriptor.get_for_save dtz ftz inst = .ok (.vdt (db_tz.localize d), inst))
    ∧ (∀ t, d.tz = some t →
      TestDateTimeDescriptor.get_for_save dtz ftz inst = .ok (.vdt d, inst)
      ∧ ∀ du, d.astimezone db_tz = .ok du → instant du = instant d) := by
  constructor
  · intro hn
    obtain ⟨w, wtz⟩ := d
    subst hn
    unfold TestDateTimeDescriptor.get_for_save
    rw [h]
  · intro t ha
    obtain ⟨w, wtz⟩ := d
    subst ha
    refine ⟨?_, ?_⟩
    · unfold TestDateTimeDescriptor.get_for_save
      rw [h]
    · intro du hdu
      dsimp only [DT.astimezone] at hdu
      simp only [Except.ok.injEq] at hdu
      subst hdu
      dsimp only [instant]
      simp only [Option.some.injEq]
      omega

/-- C4 witness: a naive canonical minute-360 value is saved localized as
UTC, and an aware Moscow canonical value is saved unchanged while denoting
the same instant as its UTC conversion. -/
theorem spec_c4_witness :
    TestDateTimeDescriptor.get_for_save chicago (.fixedZone moscow) instCanonNaive
      = .ok (.vdt (db_tz.localize ⟨360, none⟩), instCanonNaive)
    ∧ (TestDateTimeDescriptor.get_for_save chicago (.fixedZone moscow) instCanonMoscow
        = .ok (.vdt ⟨540, some moscow⟩, instCanonMoscow)
      ∧ ∀ du, DT.astimezone ⟨540, some moscow⟩ db_tz = .ok du →
          instant du = instant ⟨540, some moscow⟩) :=
  ⟨(spec_c4_canonical_utc chicago (.fixedZone moscow) instCanonNaive ⟨360, none⟩ rfl).1 rfl,
   (spec_c4_canonical_utc chicago (.fixedZone moscow) instCanonMoscow ⟨540, some moscow⟩ rfl).2
     moscow rfl⟩

/-- C5: `TestDateTimeField.get_prep_value` first coerces the value through
`to_python`; a naive datetime is then localized using the process default
zone (not any record's resolved zone) and converted to UTC, an aware
datetime is converted from its own zone, and `None` maps to `None`. -/
theorem spec_c5_get_prep_value (dtz : Timezone) (d : DT) :
    dt_to_python (.vdt d) = .ok (.vdt d)
    ∧ (d.tz = none →
        TestDateTimeField.get_prep_value dtz (.vdt d)
          = .ok (.vdt ⟨d.wall - dtz.offset + db_tz.offset, some db_tz⟩))
    ∧ (∀ t, d.tz = some t →
        TestDateTimeField.get_prep_value dtz (.vdt d)
          = .ok (.vdt ⟨d.wall - t.offset + db_tz.offset, some db_tz⟩))
    ∧ TestDateTimeField.get_prep_value dtz .vnone = .ok .vnone := by
  refine ⟨rfl, ?_, ?_, rfl⟩
  · intro hn
    obtain ⟨w, wtz⟩ := d
    subst hn
    rfl
  · intro t ha
    obtain ⟨w, wtz⟩ := d
    subst ha
    rfl

/-- C5 witness: with process default America/Chicago, the naive minute-540
datetime preps to minute 900 UTC (09:00 Chicago = 15:00 UTC, the spec's
example), an aware Moscow value preps from its own zone, and `None` stays
`None`. -/
theorem spec_c5_witness :
    dt_to_python (.vdt ⟨540, none⟩) = .ok (.vdt ⟨540, none⟩)
    ∧ TestDateTimeField.get_prep_value chicago (.vdt ⟨540, none⟩)
        = .ok (.vdt ⟨(⟨540, none⟩ : DT).wall - chicago.offset + db_tz.offset, some db_tz⟩)
    ∧ TestDateTimeField.get_prep_value chicago (.vdt ⟨540, some moscow⟩)
        = .ok (.vdt ⟨(⟨540, some moscow⟩ : DT).wall - moscow.offset + db_tz.offset, some db_tz⟩)
    ∧ TestDateTimeField.get_prep_value chicago .vnone = .ok .vnone := by
  obtain ⟨h1, h2, -, h4⟩ := spec_c5_get_prep_value chicago ⟨540, none⟩
  obtain ⟨-, -, h3, -⟩ := spec_c5_get_prep_value chicago ⟨540, some moscow⟩
  exact ⟨h1, h2 rfl, h3 moscow rfl, h4⟩

/-- C6: the claimed branches of `Get()`: a cached datetime is returned
unchanged; else a canonical datetime is interpreted as UTC (localized to
UTC if naive), converted into the resolved zone, stored into the cache and
returned; else a non-datetime raw value is returned as-is, with the state
untouched (no zone is resolved, nothing is cached). -/
theorem spec_c6_get_branches (dtz : Timezone) (ftz : FieldTz) (inst : PInstance) :
    (∀ d, inst.cache = some (.vdt d) →
      TestDateTimeDescriptor.get dtz ftz inst = .ok (.vdt d, inst))
    ∧ (∀ (d : DT) (Z : Timezone) (inst2 : PInstance) (d2 : DT), d.tz = none →
        (∀ dc, inst.cache ≠ some (.vdt dc)) →
        inst.canonical = some (.vdt d) →
        get_timezone_attr dtz ftz inst = .ok (.vtz Z, inst2) →
        (db_tz.localize d).astimezone Z = .ok d2 →
        TestDateTimeDescriptor.get dtz ftz inst
          = .ok (.vdt d2, inst2.setCache (some (.vdt d2))))
    ∧ (∀ (d : DT) (t Z : Timezone) (inst2 : PInstance) (d2 : DT), d.tz = some t →
        (∀ dc, inst.cache ≠ some (.vdt dc)) →
        inst.canonical = some (.vdt d) →
        get_timezone_attr dtz ftz inst = .ok (.vtz Z, inst2) →
        d.astimezone Z = .ok d2 →
        TestDateTimeDescriptor.get dtz ftz inst
          = .ok (.vdt d2, inst2.setCache (some (.vdt d2))))
    ∧ (∀ v, (∀ dc, inst.cache ≠ some (.vdt dc)) →
        inst.canonical = none →
        inst.raw = some v →
        (∀ d, v ≠ .vdt d) →
        TestDateTimeDescriptor.get dtz ftz inst = .ok (v, inst)) := by
  have huncached : ∀ (hcv : ∀ dc, inst.cache ≠ some (.vdt dc)),
      TestDateTimeDescriptor.get dtz ftz inst = descr_get_uncached dtz ftz inst := by
    intro hcv
    unfold TestDateTimeDescriptor.get
    cases hcc : inst.cache with
    | none => rfl
    | some c =>
      cases c with
      | vdt dc => exact absurd hcc (hcv dc)
      | vnone => rfl
      | vtz t => rfl
      | vstr s => rfl
      | vother => rfl
  refine ⟨?_, ?_, ?_, ?_⟩
  · intro d hcd
    unfold TestDateTimeDescriptor.get
    rw [hcd]
  · intro d Z inst2 d2 hn hcv hcanon hz hconv
    obtain ⟨w, wtz⟩ := d
    subst hn
    rw [huncached hcv]
    unfold descr_get_uncached
    rw [hcanon]
    dsimp only
    rw [hz]
    dsimp only [Timezone.localize, DT.astimezoneV, DT.astimezone]
    dsimp only [Timezone.localize, DT.astimezone] at hconv
    simp only [Except.ok.injEq] at hconv
    rw [hconv]
  · intro d t Z inst2 d2 ha hcv hcanon hz hconv
    obtain ⟨w, wtz⟩ := d
    subst ha
    rw [huncached hcv]
    unfold descr_get_uncached
    rw [hcanon]
    dsimp only
    rw [hz]
    dsimp only [Timezone.localize, DT.astimezoneV, DT.astimezone]
    dsimp only [DT.astimezone] at hconv
    simp only [Except.ok.injEq] at hconv
    rw [hconv]
  · intro v hcv hcanon hraw hvd
    rw [huncached hcv]
    unfold descr_get_uncached
    rw [hcanon]
    dsimp only
    rw [hraw]
    cases v with
    | vdt d => exact absurd rfl (hvd d)
    | vnone => rfl
    | vtz t => rfl
    | vstr s => rfl
    | vother => rfl

/-- C6 witness: a cached Moscow datetime is returned unchanged; a naive
minute-360 canonical value is read back as minute 540 Moscow and cached; a
raw `None` is returned as-is with the record untouched. -/
theorem spec_c6_witness :
    TestDateTimeDescriptor.get chicago (.dynamic (.sstr "tzattr")) instC7a
      = .ok (.vdt ⟨0, some moscow⟩, instC7a)
    ∧ TestDateTimeDescriptor.get chicago (.fixedZone moscow) instCanonNaive
        = .ok (.vdt ⟨540, some moscow⟩, instCanonNaive.setCache (some (.vdt ⟨540, some moscow⟩)))
    ∧ TestDateTimeDescriptor.get chicago (.fixedZone moscow) instRawNone
        = .ok (.vnone, instRawNone) := by
  obtain ⟨ha, -, -, -⟩ := spec_c6_get_branches chicago (.dynamic (.sstr "tzattr")) instC7a
  obtain ⟨-, hb, -, -⟩ := spec_c6_get_branches chicago (.fixedZone moscow) instCanonNaive
  obtain ⟨-, -, -, hc⟩ := spec_c6_get_branches chicago (.fixedZone moscow) instRawNone
  exact ⟨ha ⟨0, some moscow⟩ rfl,
    hb ⟨360, none⟩ moscow instCanonNaive ⟨540, some moscow⟩ rfl
      (fun dc h => Option.noConfusion h) rfl rfl rfl,
    hc .vnone (fun dc h => Option.noConfusion h) rfl rfl
      (fun d h => Value.noConfusion h)⟩

/-- C2 counterexample: with an empty database and no cached related
instance, resolving the dotted source `rel__tz` raises IndexError (the `[0]`
on an empty queryset) rather than yielding the process default zone. -/
theorem spec_c2_counterexample :
    get_timezone chicago inst0 (.sstr "rel__tz") = .error .indexError := rfl

/-- C2 (amended): zone resolution can raise — a dotted lookup whose
database query returns no row raises IndexError, and a missing simple
attribute raises AttributeError; only the dotted-path branch replaces a
`None` resolved value with the process default zone, while a `None` from a
simple attribute is cached and returned as `None`, not as the default
zone. -/
theorem spec_c2_resolver_failures (dtz : Timezone) (inst : PInstance) (s p : String)
    (rest : List String) :
    (inst.cache = none → split_dunder s = p :: rest → rest ≠ [] →
      lookupA inst.rel (cacheKey p) = none →
      lookupA inst.db (p :: rest) = some .vnone →
      get_timezone dtz inst (.sstr s) = .ok (.vtz dtz, inst.setCache (some (.vtz dtz))))
    ∧ (inst.cache = none → split_dunder s = p :: rest → rest ≠ [] →
      lookupA inst.rel (cacheKey p) = none →
      lookupA inst.db (p :: rest) = none →
      get_timezone dtz inst (.sstr s) = .error .indexError)
    ∧ (inst.cache = none → split_dunder s = [p] →
      lookupA inst.attrs s = some (.plain .vnone) →
      get_timezone dtz inst (.sstr s) = .ok (.vnone, inst.setCache (some .vnone))
      ∧ Value.vnone ≠ .vtz dtz)
    ∧ (inst.cache = none → split_dunder s = [p] →
      lookupA inst.attrs s = none →
      get_timezone dtz inst (.sstr s) = .error .attributeError) := by
  refine ⟨?_, ?_, ?_, ?_⟩
  · intro hc hsp hrest hrel hdb
    cases rest with
    | nil => exact absurd rfl hrest
    | cons q rest2 =>
      unfold get_timezone
      rw [hc]
      dsimp only
      rw [hsp]
      dsimp only
      simp only [resolve_dotted]
      rw [hrel]
      dsimp only
      simp only [dotted_value]
      rw [hdb]
      rfl
  · intro hc hsp hrest hrel hdb
    cases rest with
    | nil => exact absurd rfl hrest
    | cons q rest2 =>
      unfold get_timezone
      rw [hc]
      dsimp only
      rw [hsp]
      dsimp only
      simp only [resolve_dotted]
      rw [hrel]
      dsimp only
      simp only [dotted_value]
      rw [hdb]
  · intro hc hsp hattr
    refine ⟨?_, fun h => Value.noConfusion h⟩
    unfold get_timezone
    rw [hc]
    dsimp only
    rw [hsp]
    dsimp only
    rw [hattr]
    rfl
  · intro hc hsp hattr
    unfold get_timezone
    rw [hc]
    dsimp only
    rw [hsp]
    dsimp only
    rw [hattr]

/-- C2 witness: a NULL database row for `rel__tz` resolves to the default
zone (Chicago); the same path with an empty database raises IndexError; a
simple attribute holding `None` resolves to `None`, not the default zone;
and a missing attribute raises AttributeError. -/
theorem spec_c2_witness :
    get_timezone chicago instDbNull (.sstr "rel__tz")
      = .ok (.vtz chicago, instDbNull.setCache (some (.vtz chicago)))
    ∧ get_timezone chicago instAttrNone (.sstr "rel__tz") = .error .indexError
    ∧ (get_timezone chicago instAttrNone (.sstr "tz")
        = .ok (.vnone, instAttrNone.setCache (some .vnone))
      ∧ Value.vnone ≠ .vtz chicago)
    ∧ get_timezone chicago inst0 (.sstr "tz") = .error .attributeError := by
  refine ⟨?_, ?_, ?_, ?_⟩
  · exact (spec_c2_resolver_failures chicago instDbNull "rel__tz" "rel" ["tz"]).1
      rfl (by decide) (by decide) rfl rfl
  · exact (spec_c2_resolver_failures chicago instAttrNone "rel__tz" "rel" ["tz"]).2.1
      rfl (by decide) (by decide) rfl rfl
  · exact (spec_c2_resolver_failures chicago instAttrNone "tz" "tz" []).2.2.1
      rfl (by decide) rfl
  · exact (spec_c2_resolver_failures chicago inst0 "tz" "tz" []).2.2.2
      rfl (by decide) rfl

/-- C8: constructing a `TimeZoneField` first checks that the configured
maximum length holds the longest recognized zone identifier, failing with
`MisconfiguredMaxLength` when some identifier is longer, and constructing
successfully otherwise. -/
theorem spec_c8_max_length_check (maxLen : Nat) (zs : List String) (setting : String) :
    ((∃ z ∈ zs, maxLen < z.length) →
      TimeZoneField.init maxLen zs setting = .error .misconfiguredMaxLength)
    ∧ ((∀ z ∈ zs, z.length ≤ maxLen) →
      TimeZoneField.init maxLen zs setting = .ok ⟨maxLen, setting⟩) := by
  constructor
  · rintro ⟨z, hz, hlen⟩
    unfold TimeZoneField.init validate_timezone_max_length
    rw [if_neg]
    simp only [List.all_eq_true, decide_eq_true_eq]
    push_neg
    exact ⟨z, hz, hlen⟩
  · intro hall
    unfold TimeZoneField.init validate_timezone_max_length
    rw [if_pos]
    simp only [List.all_eq_true, decide_eq_true_eq]
    exact hall

/-- C8 witness: maximum length 3 cannot hold `Europe/Moscow` and fails with
`MisconfiguredMaxLength`; maximum length 100 holds every recognized name
and constructs successfully. -/
theorem spec_c8_witness :
    ((∃ z ∈ [ "UTC", "Europe/Moscow", "America/Chicago"], 3 < z.length)
      ∧ TimeZoneField.init 3 [ "UTC", "Europe/Moscow", "America/Chicago"] "UTC"
          = .error .misconfiguredMaxLength)
    ∧ ((∀ z ∈ [ "UTC", "Europe/Moscow", "America/Chicago"], z.length ≤ 100)
      ∧ TimeZoneField.init 100 [ "UTC", "Europe/Moscow", "America/Chicago"] "America/Chicago"
          = .ok ⟨100, "America/Chicago"⟩) := by
  have hbad : ∃ z ∈ [ "UTC", "Europe/Moscow", "America/Chicago"], 3 < z.length := by decide
  have hgood : ∀ z ∈ [ "UTC", "Europe/Moscow", "America/Chicago"], z.length ≤ 100 := by decide
  exact ⟨⟨hbad, (spec_c8_max_length_check 3 _ "UTC").1 hbad⟩,
    ⟨hgood, (spec_c8_max_length_check 100 _ "America/Chicago").2 hgood⟩⟩

/-- C9: `TimeZoneField.to_python` maps `None` to `None`; a string or zone
object naming a recognized zone coerces to the validated zone carrying
exactly that name (which the storage path then stores as exactly that
string), and any value outside the allow-list fails with
`InvalidTimeZone`. -/
theorem spec_c9_to_python (v : TZVal) :
    TimeZoneField.to_python none = .ok none
    ∧ (∀ off, lookupA all_timezones (smart_unicode v) = some off →
        TimeZoneField.to_python (some v) = .ok (some ⟨smart_unicode v, off⟩)
        ∧ TimeZoneField.get_prep_value (some (.z ⟨smart_unicode v, off⟩))
            = some (smart_unicode v))
    ∧ (lookupA all_timezones (smart_unicode v) = none →
        TimeZoneField.to_python (some v) = .error .invalidTimeZone) := by
  refine ⟨rfl, ?_, ?_⟩
  · intro off hoff
    constructor
    · unfold TimeZoneField.to_python coerce_timezone_value pytz_timezone
      dsimp only
      rw [hoff]
    · rfl
  · intro hnone
    unfold TimeZoneField.to_python coerce_timezone_value pytz_timezone
    dsimp only
    rw [hnone]

/-- C9 witness: `None` stays `None`; the string `UTC` coerces to the UTC
zone and stores back as exactly `UTC`; the string `Not/AZone` fails with
`InvalidTimeZone`. -/
theorem spec_c9_witness :
    TimeZoneField.to_python none = .ok none
    ∧ TimeZoneField.to_python (some (.s "UTC")) = .ok (some ⟨ "UTC", 0⟩)
    ∧ TimeZoneField.get_prep_value (some (.z ⟨ "UTC", 0⟩)) = some "UTC"
    ∧ TimeZoneField.to_python (some (.s "Not/AZone")) = .error .invalidTimeZone := by
  obtain ⟨h1, h2, -⟩ := spec_c9_to_python (.s "UTC")
  obtain ⟨-, -, h3⟩ := spec_c9_to_python (.s "Not/AZone")
  obtain ⟨h2a, h2b⟩ := h2 0 rfl
  exact ⟨h1, h2a, h2b, h3 rfl⟩

/-- C10: `TimeZoneField.get_prep_value` maps `None` to `None` and any other
value to its unicode string form — a zone object is stored by its
identifier string — performing no allow-list validation, and
`get_db_prep_save` delegates to it. -/
theorem spec_c10_storage_prep (v : TZVal) (tz : Timezone) :
    TimeZoneField.get_prep_value none = none
    ∧ TimeZoneField.get_prep_value (some v) = some (smart_unicode v)
    ∧ TimeZoneField.get_db_prep_save (some v) = TimeZoneField.get_prep_value (some v)
    ∧ TimeZoneField.get_db_prep_save none = TimeZoneField.get_prep_value none
    ∧ TimeZoneField.get_prep_value (some (.z tz)) = some tz.name :=
  ⟨rfl, rfl, rfl, rfl, rfl⟩

/-- C10 witness: a string outside any allow-list preps to itself without
error, and a Moscow zone object preps to its identifier string. -/
theorem spec_c10_witness :
    TimeZoneField.get_prep_value none = none
    ∧ TimeZoneField.get_prep_value (some (.s "Not/AZone"))
        = some (smart_unicode (.s "Not/AZone"))
    ∧ TimeZoneField.get_db_prep_save (some (.s "Not/AZone"))
        = TimeZoneField.get_prep_value (some (.s "Not/AZone"))
    ∧ TimeZoneField.get_db_prep_save none = TimeZoneField.get_prep_value none
    ∧ TimeZoneField.get_prep_value (some (.z moscow)) = some moscow.name :=
  spec_c10_storage_prep (.s "Not/AZone") moscow
